import Mathlib

/-!
Verification of the picoclaw tenant manager core: the tenant lifecycle
orchestrator (`Service.create` / `Service.update` / `Service.delete`) and the
cluster manifest applier (`parseYAMLDocuments` / `Applier.apply`), shallowly
embedded from the Go source.  External collaborators (template renderer,
Kubernetes API, SQL store transport) are modelled as oracles in an `Env`
record; the store itself is an association list mirroring the keyed CRUD
contract of `store.go`.
-/

namespace Picoclaw

/-- Resource limits for a tenant's workloads (struct `Resources`). -/
structure Resources where
  agentCPU : String
  agentMemory : String
  gatewayCPU : String
  gatewayMemory : String
  workspaceSize : String
deriving DecidableEq, Repr

/-- `DefaultResources` from the source: the five default quantity strings. -/
def DefaultResources : Resources :=
  { agentCPU := "500m"
    agentMemory := "1Gi"
    gatewayCPU := "250m"
    gatewayMemory := "512Mi"
    workspaceSize := "500Mi" }

/-- `mergeResources` from the source: field-wise overlay, an empty override
field keeps the base field. -/
def mergeResources (base override : Resources) : Resources :=
  let b1 := if override.agentCPU ≠ "" then { base with agentCPU := override.agentCPU } else base
  let b2 := if override.agentMemory ≠ "" then { b1 with agentMemory := override.agentMemory } else b1
  let b3 := if override.gatewayCPU ≠ "" then { b2 with gatewayCPU := override.gatewayCPU } else b2
  let b4 := if override.gatewayMemory ≠ "" then { b3 with gatewayMemory := override.gatewayMemory } else b3
  if override.workspaceSize ≠ "" then { b4 with workspaceSize := override.workspaceSize } else b4

/-- Opaque JSON values carried through the config document
(`map[string]interface{}` payloads in Go). -/
inductive Json where
  | null : Json
  | boolVal : Bool → Json
  | numVal : Int → Json
  | strVal : String → Json
  | arrVal : List Json → Json
  | objVal : List (String × Json) → Json

/-- A configuration document: a JSON object as a key/value list. -/
abbrev ConfigDoc := List (String × Json)

/-- Lookup of a top-level key in a config document. -/
def getKey (doc : ConfigDoc) (k : String) : Option Json :=
  (doc.find? (fun p => p.1 = k)).map (fun p => p.2)

/-- Go map assignment `doc[k] = v`: replace the value when the key is
present, append otherwise. -/
def setKey (doc : ConfigDoc) (k : String) (v : Json) : ConfigDoc :=
  if doc.any (fun p => p.1 = k) then
    doc.map (fun p => if p.1 = k then (k, v) else p)
  else
    doc ++ [(k, v)]

/-- The fixed gateway skeleton every config document starts from. -/
def gatewayDefault : Json :=
  Json.objVal [("host", Json.strVal "0.0.0.0"), ("port", Json.numVal 18790)]

/-- `buildConfigJSON` from the source: gateway skeleton plus the supplied
top-level sections, injected only when non-nil. -/
def buildConfigJSON (providers agents channels : Option Json) : ConfigDoc :=
  let c0 : ConfigDoc := [("gateway", gatewayDefault)]
  let c1 := match providers with
    | some p => setKey c0 "providers" p
    | none => c0
  let c2 := match agents with
    | some a => setKey c1 "agents" a
    | none => c1
  match channels with
  | some ch => setKey c2 "channels" ch
  | none => c2

/-- A tenant record (struct `Tenant`); timestamps are abstract ticks. -/
structure Tenant where
  id : String
  displayName : String
  nspace : String
  configJSON : ConfigDoc
  resources : Resources
  status : String
  createdAt : Nat
  updatedAt : Nat

/-- Template variables (struct `TenantVars`). -/
structure TenantVars where
  tenantID : String
  nspace : String
  configJSON : ConfigDoc
  image : String
  agentReplicas : Nat
  agentCPU : String
  agentMemory : String
  gatewayCPU : String
  gatewayMemory : String
  workspaceSize : String
  labels : List (String × String)

/-- `Tenant.ToVars` from the source. -/
def Tenant.toVars (t : Tenant) (image : String) : TenantVars :=
  { tenantID := t.id
    nspace := t.nspace
    configJSON := t.configJSON
    image := image
    agentReplicas := 1
    agentCPU := t.resources.agentCPU
    agentMemory := t.resources.agentMemory
    gatewayCPU := t.resources.gatewayCPU
    gatewayMemory := t.resources.gatewayMemory
    workspaceSize := t.resources.workspaceSize
    labels := [("app.kubernetes.io/managed-by", "picoclaw-manager"),
               ("picoclaw.io/tenant", t.id)] }

/-- A lowercase ASCII letter or digit. -/
def isLowerAlnum (c : Char) : Bool :=
  ('a' ≤ c && c ≤ 'z') || ('0' ≤ c && c ≤ '9')

/-- A character allowed anywhere but the ends of a DNS label. -/
def isDNSChar (c : Char) : Bool := isLowerAlnum c || c = '-'

/-- The regular expression from the source,
`^[a-z0-9]([a-z0-9\-]{0,61}[a-z0-9])?$`: non-empty, at most 63 characters,
alphanumeric at both ends, DNS characters throughout. -/
def dnsNameMatch (s : String) : Bool :=
  let cs := s.toList
  !cs.isEmpty && decide (cs.length ≤ 63) &&
    isLowerAlnum (cs.headD ' ') && isLowerAlnum (cs.getLastD ' ') &&
    cs.all isDNSChar

/-- `validateTenantID` from the source: `none` means valid, `some msg` the
validation error message. -/
def validateTenantID (id : String) : Option String :=
  if id = "" then some "tenant_id is required"
  else if id.length > 53 then some "tenant_id too long (max 53 characters)"
  else if !dnsNameMatch id then
    some "tenant_id must be a valid DNS subdomain (lowercase alphanumeric and hyphens)"
  else none

/-- Error taxonomy of the orchestrator (the spec's classification of the
source's error returns). -/
inductive TenantError where
  | validationError : String → TenantError
  | conflictError : String → TenantError
  | notFoundError : String → TenantError
  | remoteError : String → TenantError
  | persistenceError : String → TenantError
deriving DecidableEq, Repr

/-- The tenant store contents, keyed by tenant ID (`store.go`). -/
abbrev StoreState := List (String × Tenant)

/-- `Store.Get`: `none` when no row exists. -/
def storeGetF (st : StoreState) (id : String) : Option Tenant :=
  (st.find? (fun p => p.1 = id)).map (fun p => p.2)

/-- `Store.Create`: insert a new row. -/
def storeCreateF (st : StoreState) (t : Tenant) : StoreState :=
  st ++ [(t.id, t)]

/-- `Store.Update`: overwrite the row in place, `none` when no row matched. -/
def storeUpdateF (st : StoreState) (t : Tenant) : Option StoreState :=
  if st.any (fun p => p.1 = t.id) then
    some (st.map (fun p => if p.1 = t.id then (t.id, t) else p))
  else none

/-- `Store.Delete`: remove the row, `none` when no row matched. -/
def storeDeleteF (st : StoreState) (id : String) : Option StoreState :=
  if st.any (fun p => p.1 = id) then
    some (st.filter (fun p => !(p.1 = id)))
  else none

/-- Cluster calls issued by the orchestrator, in order. -/
inductive ClusterOp where
  | applyOp : String → ClusterOp
  | deleteNsOp : String → ClusterOp
  | restartOp : String → String → ClusterOp
deriving DecidableEq, Repr

/-- Oracles for the external collaborators: the template renderer, the
cluster apply / namespace-delete calls, and the success of each store
round-trip. `now2` is the clock value `Store.Update` stamps into
`updatedAt`. -/
structure Env where
  render : TenantVars → Except String String
  apply : String → Except String Unit
  deleteNs : String → Except String Unit
  storeGetOk : Bool
  storeCreateOk : Bool
  storeUpdateOk : Bool
  storeDeleteOk : Bool
  now2 : Nat

/-- `CreateRequest` from the source. -/
structure CreateRequest where
  tenantID : String
  displayName : String
  providers : Option Json
  agents : Option Json
  channels : Option Json
  resources : Option Resources

/-- `UpdateRequest` from the source. -/
structure UpdateRequest where
  displayName : String
  providers : Option Json
  agents : Option Json
  channels : Option Json
  resources : Option Resources

/-- The tenant `Service.Create` builds before applying: status
`provisioning`, namespace derived from the ID, merged resources. -/
def freshTenant (req : CreateRequest) (now : Nat) : Tenant :=
  { id := req.tenantID
    displayName := req.displayName
    nspace := "picoclaw-tenant-" ++ req.tenantID
    configJSON := buildConfigJSON req.providers req.agents req.channels
    resources :=
      match req.resources with
      | none => DefaultResources
      | some r => mergeResources DefaultResources r
    status := "provisioning"
    createdAt := now
    updatedAt := now }

/-- `Service.Create`: validate, check conflicts, build config, merge
resources, render, apply, persist, flip to active.  Returns the result, the
new store contents and the cluster calls issued. -/
def Service.create (env : Env) (image : String) (st : StoreState)
    (req : CreateRequest) (now : Nat) :
    Except TenantError Tenant × StoreState × List ClusterOp :=
  match validateTenantID req.tenantID with
  | some msg => (Except.error (TenantError.validationError msg), st, [])
  | none =>
    if req.displayName = "" then
      (Except.error (TenantError.validationError "display_name is required"), st, [])
    else if env.storeGetOk = false then
      (Except.error (TenantError.persistenceError "check existing"), st, [])
    else
      match storeGetF st req.tenantID with
      | some _ =>
        (Except.error (TenantError.conflictError req.tenantID), st, [])
      | none =>
        let t := freshTenant req now
        match env.render (t.toVars image) with
        | Except.error e =>
          (Except.error (TenantError.remoteError ("render templates: " ++ e)), st, [])
        | Except.ok manifests =>
          match env.apply manifests with
          | Except.error e =>
            (Except.error (TenantError.remoteError ("apply manifests: " ++ e)), st,
              [ClusterOp.applyOp manifests])
          | Except.ok _ =>
            if env.storeCreateOk = false then
              -- Best-effort cleanup: the namespace delete is issued and its
              -- outcome discarded, as in the source.
              match env.deleteNs t.nspace with
              | _ =>
                (Except.error (TenantError.persistenceError ("store tenant: " ++ req.tenantID)),
                  st, [ClusterOp.applyOp manifests, ClusterOp.deleteNsOp t.nspace])
            else
              let st1 := storeCreateF st t
              let t1 := { t with status := "active", updatedAt := env.now2 }
              let st2 :=
                if env.storeUpdateOk = false then st1
                else
                  match storeUpdateF st1 t1 with
                  | none => st1
                  | some s2 => s2
              (Except.ok t1, st2, [ClusterOp.applyOp manifests])

/-- The configuration rebuild inside `Service.Update`: when any of the
three sections is supplied, each supplied key's value fully replaces the
previous one. -/
def updatedConfig (cfg : ConfigDoc) (req : UpdateRequest) : ConfigDoc :=
  if req.providers.isSome || req.agents.isSome || req.channels.isSome then
    let e1 := match req.providers with
      | some p => setKey cfg "providers" p
      | none => cfg
    let e2 := match req.agents with
      | some a => setKey e1 "agents" a
      | none => e1
    match req.channels with
    | some c => setKey e2 "channels" c
    | none => e2
  else cfg

/-- The tenant `Service.Update` builds before re-rendering: display name,
config sections and resources overlaid on the stored record. -/
def updatedTenant (t0 : Tenant) (req : UpdateRequest) : Tenant :=
  let t1 := if req.displayName ≠ "" then { t0 with displayName := req.displayName } else t0
  let t2 := { t1 with configJSON := updatedConfig t1.configJSON req }
  match req.resources with
  | some r => { t2 with resources := mergeResources t2.resources r }
  | none => t2

/-- `Service.Update`: fetch, overlay display name / config sections /
resources, re-render, re-apply, persist. -/
def Service.update (env : Env) (image : String) (st : StoreState)
    (id : String) (req : UpdateRequest) :
    Except TenantError Tenant × StoreState × List ClusterOp :=
  if env.storeGetOk = false then
    (Except.error (TenantError.persistenceError "get tenant"), st, [])
  else
    match storeGetF st id with
    | none => (Except.error (TenantError.notFoundError id), st, [])
    | some t0 =>
      let t3 := updatedTenant t0 req
      match env.render (t3.toVars image) with
      | Except.error e =>
        (Except.error (TenantError.remoteError ("render templates: " ++ e)), st, [])
      | Except.ok manifests =>
        match env.apply manifests with
        | Except.error e =>
          (Except.error (TenantError.remoteError ("apply manifests: " ++ e)), st,
            [ClusterOp.applyOp manifests])
        | Except.ok _ =>
          if env.storeUpdateOk = false then
            (Except.error (TenantError.persistenceError ("store update: " ++ id)), st,
              [ClusterOp.applyOp manifests])
          else
            let t4 := { t3 with updatedAt := env.now2 }
            match storeUpdateF st t4 with
            | none =>
              (Except.error (TenantError.persistenceError ("store update: " ++ id)), st,
                [ClusterOp.applyOp manifests])
            | some st2 => (Except.ok t4, st2, [ClusterOp.applyOp manifests])

/-- `Service.Delete`: fetch, delete the namespace, remove the store row. -/
def Service.delete (env : Env) (st : StoreState) (id : String) :
    Except TenantError Unit × StoreState × List ClusterOp :=
  if env.storeGetOk = false then
    (Except.error (TenantError.persistenceError "get tenant"), st, [])
  else
    match storeGetF st id with
    | none => (Except.error (TenantError.notFoundError id), st, [])
    | some t =>
      match env.deleteNs t.nspace with
      | Except.error e =>
        (Except.error (TenantError.remoteError ("delete namespace: " ++ e)), st,
          [ClusterOp.deleteNsOp t.nspace])
      | Except.ok _ =>
        if env.storeDeleteOk = false then
          (Except.error (TenantError.persistenceError ("delete tenant: " ++ id)), st,
            [ClusterOp.deleteNsOp t.nspace])
        else
          match storeDeleteF st id with
          | none =>
            (Except.error (TenantError.persistenceError ("tenant not found: " ++ id)), st,
              [ClusterOp.deleteNsOp t.nspace])
          | some st2 => (Except.ok (), st2, [ClusterOp.deleteNsOp t.nspace])

/-! ## The cluster manifest applier (`pkg/manager/k8s`, part of the core)

The Kubernetes YAML reader yields a sequence of raw document chunks; the
YAML-to-JSON conversion and unstructured unmarshalling are library calls
modelled by a `parse` oracle.  The repo's own logic — trimming, skipping
empties and bare separators, discarding empty-kind documents, the apply
loop — is embedded below. -/

/-- A parsed unstructured object: the fields the applier reads. -/
structure KObj where
  kind : String
  name : String
  nspace : String
deriving DecidableEq, Repr

/-- A REST mapping: whether the resource is namespace-scoped. -/
structure Mapping where
  namespaced : Bool
deriving DecidableEq, Repr

/-- Whitespace trimming on both ends of a character list
(`bytes.TrimSpace`). -/
def trimChars (cs : List Char) : List Char :=
  ((cs.dropWhile fun c => c.isWhitespace).reverse.dropWhile
    fun c => c.isWhitespace).reverse

/-- Whitespace trimming of a document chunk. -/
def trimDoc (s : String) : String := String.mk (trimChars s.data)

/-- `parseYAMLDocuments` from the source: trim each chunk, skip empty chunks
and bare `---` separators, parse, and drop documents whose declared kind is
empty. -/
def parseYAMLDocuments (parse : String → Except String KObj)
    (docs : List String) : Except String (List KObj) :=
  match docs with
  | [] => Except.ok []
  | d :: rest =>
    let d := trimDoc d
    if d.length = 0 || d = "---" then
      parseYAMLDocuments parse rest
    else
      match parse d with
      | Except.error e => Except.error ("convert YAML to JSON: " ++ e)
      | Except.ok obj =>
        if obj.kind = "" then
          parseYAMLDocuments parse rest
        else
          match parseYAMLDocuments parse rest with
          | Except.error e => Except.error e
          | Except.ok objs => Except.ok (obj :: objs)

/-- The number of chunks that survive trimming and separator skipping and
parse to a document with a non-empty kind. -/
def countNonEmptyKind (parse : String → Except String KObj)
    (docs : List String) : Nat :=
  match docs with
  | [] => 0
  | d :: rest =>
    let d := trimDoc d
    if d.length = 0 || d = "---" then
      countNonEmptyKind parse rest
    else
      match parse d with
      | Except.error _ => countNonEmptyKind parse rest
      | Except.ok obj =>
        if obj.kind = "" then countNonEmptyKind parse rest
        else countNonEmptyKind parse rest + 1

/-- The apply loop of `Applier.Apply`: resolve each object's REST mapping and
submit it via a server-side-apply patch.  Returns the overall outcome and
the objects actually submitted (a `patch` call was issued for each, in
stream order). -/
def applyLoop (mapping : KObj → Except String Mapping)
    (patch : KObj → Except String Unit) :
    List KObj → Except String Unit × List KObj
  | [] => (Except.ok (), [])
  | o :: rest =>
    match mapping o with
    | Except.error e =>
      (Except.error ("find REST mapping for " ++ o.kind ++ ": " ++ e), [])
    | Except.ok _ =>
      match patch o with
      | Except.error e =>
        (Except.error ("apply " ++ o.kind ++ "/" ++ o.name ++ ": " ++ e), [o])
      | Except.ok _ =>
        let (res, submitted) := applyLoop mapping patch rest
        (res, o :: submitted)

/-- `Applier.Apply` from the source: parse the stream, build the REST
mapper, then run the apply loop. -/
def Applier.apply (parse : String → Except String KObj)
    (buildMapperOk : Bool)
    (mapping : KObj → Except String Mapping)
    (patch : KObj → Except String Unit)
    (docs : List String) : Except String Unit × List KObj :=
  match parseYAMLDocuments parse docs with
  | Except.error e => (Except.error ("parse manifests: " ++ e), [])
  | Except.ok objs =>
    if buildMapperOk = false then
      (Except.error "build REST mapper", [])
    else
      applyLoop mapping patch objs

/-- An environment in which every collaborator succeeds; used to exercise
the operations on concrete inputs. -/
def envAllOk : Env :=
  { render := fun _ => Except.ok "manifests"
    apply := fun _ => Except.ok ()
    deleteNs := fun _ => Except.ok ()
    storeGetOk := true
    storeCreateOk := true
    storeUpdateOk := true
    storeDeleteOk := true
    now2 := 2 }

/-- The request of the spec's first Create scenario. -/
def acmeRequest : CreateRequest :=
  { tenantID := "acme"
    displayName := "ACME"
    providers := none
    agents := none
    channels := none
    resources := none }

/-! ## Helper lemmas -/

/-- When no row matches an ID, replacing that ID's row is the identity. -/
theorem map_replace_eq_self {st : StoreState} {id : String} {t : Tenant}
    (h : storeGetF st id = none) :
    st.map (fun p => if p.1 = id then (id, t) else p) = st := by
  have hf : st.find? (fun p => p.1 = id) = none := by
    unfold storeGetF at h
    exact Option.map_eq_none'.mp h
  have hall := List.find?_eq_none.mp hf
  calc st.map (fun p => if p.1 = id then (id, t) else p)
      = st.map (fun p => p) := by
        refine List.map_congr_left (fun p hp => ?_)
        have := hall p hp
        simp only [decide_eq_true_eq] at this
        simp [this]
    _ = st := List.map_id' st

/-- After appending a fresh row, lookup of its ID finds it. -/
theorem storeGetF_append_self {st : StoreState} {id : String} {t : Tenant}
    (h : storeGetF st id = none) :
    storeGetF (st ++ [(id, t)]) id = some t := by
  have hf : st.find? (fun p => p.1 = id) = none := by
    unfold storeGetF at h
    exact Option.map_eq_none'.mp h
  unfold storeGetF
  rw [List.find?_append, hf]
  simp

/-- A successful `Service.create` run, evaluated: the returned tenant is the
fresh tenant flipped to `active` with the update timestamp, the store gains
exactly that row, and exactly one cluster apply is issued. -/
theorem create_success_eq (env : Env) (image : String) (st : StoreState)
    (req : CreateRequest) (now : Nat) (m : String)
    (hval : validateTenantID req.tenantID = none)
    (hdn : ¬ req.displayName = "")
    (hget : env.storeGetOk = true)
    (hnone : storeGetF st req.tenantID = none)
    (hm : env.render ((freshTenant req now).toVars image) = Except.ok m)
    (ha : env.apply m = Except.ok ())
    (hc : env.storeCreateOk = true)
    (hu : env.storeUpdateOk = true) :
    Service.create env image st req now =
      (Except.ok { freshTenant req now with status := "active", updatedAt := env.now2 },
       st ++ [(req.tenantID, { freshTenant req now with status := "active", updatedAt := env.now2 })],
       [ClusterOp.applyOp m]) := by
  have hany : (storeCreateF st (freshTenant req now)).any
      (fun p => p.1 = ({ freshTenant req now with
        status := "active", updatedAt := env.now2 } : Tenant).id) = true := by
    unfold storeCreateF freshTenant
    simp [List.any_append]
  have hupd : storeUpdateF (storeCreateF st (freshTenant req now))
      { freshTenant req now with status := "active", updatedAt := env.now2 } =
      some (st ++ [(req.tenantID,
        { freshTenant req now with status := "active", updatedAt := env.now2 })]) := by
    unfold storeUpdateF
    rw [if_pos hany]
    unfold storeCreateF
    rw [List.map_append]
    have hid : ({ freshTenant req now with
        status := "active", updatedAt := env.now2 } : Tenant).id = req.tenantID := rfl
    rw [hid, map_replace_eq_self hnone]
    simp [freshTenant]
  unfold Service.create
  rw [hval]
  simp only [hdn, if_neg, hget, Bool.true_eq_false, if_false, hnone, hm, ha, hc, hu,
    ite_false, ite_true, if_true]
  rw [hupd]

/-- An uppercase ASCII letter is not a DNS character. -/
theorem isDNSChar_false_of_upper {c : Char} (h1 : 'A' ≤ c) (h2 : c ≤ 'Z') :
    isDNSChar c = false := by
  rw [Char.le_def, UInt32.le_def, BitVec.le_def] at h1 h2
  have e1 : ('A'.val.toBitVec.toNat) = 65 := rfl
  have e2 : ('Z'.val.toBitVec.toNat) = 90 := rfl
  rw [e1] at h1
  rw [e2] at h2
  simp only [isDNSChar, isLowerAlnum, Bool.or_eq_false_iff, Bool.and_eq_false_iff,
    decide_eq_false_iff_not]
  refine ⟨⟨Or.inl fun h => ?_, Or.inr fun h => ?_⟩, fun h => ?_⟩
  · rw [Char.le_def, UInt32.le_def, BitVec.le_def] at h
    have e3 : ('a'.val.toBitVec.toNat) = 97 := rfl
    rw [e3] at h
    omega
  · rw [Char.le_def, UInt32.le_def, BitVec.le_def] at h
    have e4 : ('9'.val.toBitVec.toNat) = 57 := rfl
    rw [e4] at h
    omega
  · subst h
    simp at h1 h2

/-- The hyphen is not alphanumeric. -/
theorem isLowerAlnum_hyphen : isLowerAlnum '-' = false := by decide

/-- The underscore is not a DNS character. -/
theorem isDNSChar_underscore : isDNSChar '_' = false := by decide

/-- A string containing a non-DNS character fails the DNS-label match. -/
theorem dnsNameMatch_false_of_bad_char {s : String} {c : Char}
    (hm : c ∈ s.toList) (hc : isDNSChar c = false) : dnsNameMatch s = false := by
  have hall : s.toList.all isDNSChar = false := by
    rw [Bool.eq_false_iff]
    intro hall
    have := (List.all_eq_true.mp hall) c hm
    rw [hc] at this
    exact Bool.noConfusion this
  unfold dnsNameMatch
  dsimp only
  rw [hall, Bool.and_false]

/-- A string starting with a hyphen fails the DNS-label match. -/
theorem dnsNameMatch_false_of_headD {s : String}
    (h : s.toList.headD ' ' = '-') : dnsNameMatch s = false := by
  unfold dnsNameMatch
  dsimp only
  rw [h, isLowerAlnum_hyphen]
  simp

/-- A string ending with a hyphen fails the DNS-label match. -/
theorem dnsNameMatch_false_of_getLastD {s : String}
    (h : s.toList.getLastD ' ' = '-') : dnsNameMatch s = false := by
  unfold dnsNameMatch
  dsimp only
  rw [h, isLowerAlnum_hyphen]
  simp

/-- A string failing the DNS-label match is rejected by the validator. -/
theorem validateTenantID_some_of_not_match {id : String}
    (h : dnsNameMatch id = false) : ∃ msg, validateTenantID id = some msg := by
  unfold validateTenantID
  split_ifs with h1 h2 h3
  · exact ⟨_, rfl⟩
  · exact ⟨_, rfl⟩
  · exact ⟨_, rfl⟩
  · rw [h] at h3
    exact absurd rfl h3

/-- A string longer than 53 characters is rejected by the validator. -/
theorem validateTenantID_some_of_long {id : String}
    (h : 53 < id.length) : ∃ msg, validateTenantID id = some msg := by
  unfold validateTenantID
  split_ifs <;> exact ⟨_, rfl⟩

/-! ## Claims -/

/-- Claim C1: with no prior record for `"acme"` and all collaborators
succeeding, `Create({tenant_id: "acme", display_name: "ACME", resources:
null})` returns a tenant whose namespace is `"picoclaw-tenant-acme"`, whose
five resource fields are the defaults, and whose status is `"active"`. -/
theorem create_acme_scenario (env : Env) (image : String) (st : StoreState)
    (now : Nat) (m : String)
    (hget : env.storeGetOk = true)
    (hc : env.storeCreateOk = true)
    (hu : env.storeUpdateOk = true)
    (hnone : storeGetF st "acme" = none)
    (hm : env.render ((freshTenant acmeRequest now).toVars image) = Except.ok m)
    (ha : env.apply m = Except.ok ()) :
    ∃ t : Tenant,
      (Service.create env image st acmeRequest now).1 = Except.ok t ∧
      t.nspace = "picoclaw-tenant-acme" ∧
      t.resources.agentCPU = "500m" ∧
      t.resources.agentMemory = "1Gi" ∧
      t.resources.gatewayCPU = "250m" ∧
      t.resources.gatewayMemory = "512Mi" ∧
      t.resources.workspaceSize = "500Mi" ∧
      t.status = "active" := by
  have h := create_success_eq env image st acmeRequest now m rfl (by decide)
    hget hnone hm ha hc hu
  refine ⟨{ freshTenant acmeRequest now with status := "active", updatedAt := env.now2 },
    ?_, rfl, rfl, rfl, rfl, rfl, rfl, rfl⟩
  rw [h]

/-- Witness for C1: the scenario evaluated in the all-succeeding
environment on the empty store. -/
theorem create_acme_scenario_witness :
    ∃ t : Tenant,
      (Service.create envAllOk "img" [] acmeRequest 0).1 = Except.ok t ∧
      t.nspace = "picoclaw-tenant-acme" ∧
      t.resources.agentCPU = "500m" ∧
      t.resources.agentMemory = "1Gi" ∧
      t.resources.gatewayCPU = "250m" ∧
      t.resources.gatewayMemory = "512Mi" ∧
      t.resources.workspaceSize = "500Mi" ∧
      t.status = "active" :=
  create_acme_scenario envAllOk "img" [] 0 "manifests" rfl rfl rfl rfl rfl rfl

/-- Claim C2: the resource merge is field-wise — an empty override field
keeps the base field, a non-empty one replaces it; an override in which
only `agent_memory` is non-empty changes only that field. -/
theorem mergeResources_fieldwise :
    (∀ b o : Resources,
      (mergeResources b o).agentCPU =
        (if o.agentCPU = "" then b.agentCPU else o.agentCPU) ∧
      (mergeResources b o).agentMemory =
        (if o.agentMemory = "" then b.agentMemory else o.agentMemory) ∧
      (mergeResources b o).gatewayCPU =
        (if o.gatewayCPU = "" then b.gatewayCPU else o.gatewayCPU) ∧
      (mergeResources b o).gatewayMemory =
        (if o.gatewayMemory = "" then b.gatewayMemory else o.gatewayMemory) ∧
      (mergeResources b o).workspaceSize =
        (if o.workspaceSize = "" then b.workspaceSize else o.workspaceSize)) ∧
    (∀ (b : Resources) (s : String), s ≠ "" →
      mergeResources b
        { agentCPU := "", agentMemory := s, gatewayCPU := "",
          gatewayMemory := "", workspaceSize := "" } =
        { b with agentMemory := s }) := by
  constructor
  · intro b o
    unfold mergeResources
    refine ⟨?_, ?_, ?_, ?_, ?_⟩ <;> (split_ifs <;> simp_all)
  · intro b s hs
    unfold mergeResources
    simp [hs]

/-- Witness for C2: overriding only `agent_memory` over the defaults. -/
theorem mergeResources_fieldwise_witness :
    mergeResources DefaultResources
      { agentCPU := "", agentMemory := "2Gi", gatewayCPU := "",
        gatewayMemory := "", workspaceSize := "" } =
      { DefaultResources with agentMemory := "2Gi" } :=
  mergeResources_fieldwise.2 DefaultResources "2Gi" (by decide)

/-- Claim C4: a tenant ID containing an uppercase letter or an underscore,
starting or ending with a hyphen, or longer than 53 characters makes Create
fail with a validation error, leaving the store untouched and issuing no
cluster call. -/
theorem create_invalid_id_rejected (env : Env) (image : String)
    (st : StoreState) (req : CreateRequest) (now : Nat)
    (h : (∃ c ∈ req.tenantID.toList, 'A' ≤ c ∧ c ≤ 'Z') ∨
         '_' ∈ req.tenantID.toList ∨
         req.tenantID.toList.headD ' ' = '-' ∨
         req.tenantID.toList.getLastD ' ' = '-' ∨
         53 < req.tenantID.length) :
    ∃ msg, Service.create env image st req now =
      (Except.error (TenantError.validationError msg), st, []) := by
  have hv : ∃ msg, validateTenantID req.tenantID = some msg := by
    rcases h with ⟨c, hc, h1, h2⟩ | h | h | h | h
    · exact validateTenantID_some_of_not_match
        (dnsNameMatch_false_of_bad_char hc (isDNSChar_false_of_upper h1 h2))
    · exact validateTenantID_some_of_not_match
        (dnsNameMatch_false_of_bad_char h isDNSChar_underscore)
    · exact validateTenantID_some_of_not_match (dnsNameMatch_false_of_headD h)
    · exact validateTenantID_some_of_not_match (dnsNameMatch_false_of_getLastD h)
    · exact validateTenantID_some_of_long h
  obtain ⟨msg, hmsg⟩ := hv
  refine ⟨msg, ?_⟩
  unfold Service.create
  rw [hmsg]

/-- Witness for C4: `Create({tenant_id: "ACME"})` is rejected with no
mutation. -/
theorem create_invalid_id_rejected_witness :
    ∃ msg, Service.create envAllOk "img" [] { acmeRequest with tenantID := "ACME" } 0 =
      (Except.error (TenantError.validationError msg), [], []) :=
  create_invalid_id_rejected envAllOk "img" [] { acmeRequest with tenantID := "ACME" } 0
    (Or.inl ⟨'A', by decide, by decide, by decide⟩)

/-- Claim C5: when a record with the requested tenant ID already exists,
Create returns a conflict error, leaves the store untouched and issues no
cluster call; consequently the second of two sequential Create calls with
the same ID fails with a conflict error and without a second apply. -/
theorem create_conflict_on_existing :
    (∀ (env : Env) (image : String) (st : StoreState) (req : CreateRequest)
        (now : Nat) (t0 : Tenant),
      validateTenantID req.tenantID = none →
      ¬ req.displayName = "" →
      env.storeGetOk = true →
      storeGetF st req.tenantID = some t0 →
      Service.create env image st req now =
        (Except.error (TenantError.conflictError req.tenantID), st, [])) ∧
    (∀ (env : Env) (image : String) (st : StoreState) (req : CreateRequest)
        (now now' : Nat) (m : String),
      validateTenantID req.tenantID = none →
      ¬ req.displayName = "" →
      env.storeGetOk = true →
      storeGetF st req.tenantID = none →
      env.render ((freshTenant req now).toVars image) = Except.ok m →
      env.apply m = Except.ok () →
      env.storeCreateOk = true →
      env.storeUpdateOk = true →
      Service.create env image ((Service.create env image st req now).2.1) req now' =
        (Except.error (TenantError.conflictError req.tenantID),
         (Service.create env image st req now).2.1, [])) := by
  have base : ∀ (env : Env) (image : String) (st : StoreState)
      (req : CreateRequest) (now : Nat) (t0 : Tenant),
      validateTenantID req.tenantID = none →
      ¬ req.displayName = "" →
      env.storeGetOk = true →
      storeGetF st req.tenantID = some t0 →
      Service.create env image st req now =
        (Except.error (TenantError.conflictError req.tenantID), st, []) := by
    intro env image st req now t0 hval hdn hget hex
    unfold Service.create
    rw [hval]
    simp only [hdn, if_neg, hget, Bool.true_eq_false, if_false, hex, ite_false]
  refine ⟨base, ?_⟩
  intro env image st req now now' m hval hdn hget hnone hm ha hc hu
  rw [create_success_eq env image st req now m hval hdn hget hnone hm ha hc hu]
  exact base env image _ req now'
    { freshTenant req now with status := "active", updatedAt := env.now2 }
    hval hdn hget (storeGetF_append_self hnone)

/-- Witness for C5: two sequential creations of `"acme"` on the empty
store, the second conflicting without any cluster op. -/
theorem create_conflict_on_existing_witness :
    Service.create envAllOk "img"
        ((Service.create envAllOk "img" [] acmeRequest 0).2.1) acmeRequest 1 =
      (Except.error (TenantError.conflictError "acme"),
       (Service.create envAllOk "img" [] acmeRequest 0).2.1, []) :=
  create_conflict_on_existing.2 envAllOk "img" [] acmeRequest 0 1 "manifests"
    rfl (by decide) rfl rfl rfl rfl rfl rfl

/-- Claim C6: when the cluster apply succeeds but persisting the tenant
fails, Create issues a best-effort deletion of the just-created namespace
and returns the persistence error with the store untouched; the cleanup's
outcome never influences the returned result — any two environments
differing only in the namespace-deletion oracle produce identical
results. -/
theorem create_cleanup_on_persist_failure (env : Env) (image : String)
    (st : StoreState) (req : CreateRequest) (now : Nat) (m : String)
    (hval : validateTenantID req.tenantID = none)
    (hdn : ¬ req.displayName = "")
    (hget : env.storeGetOk = true)
    (hnone : storeGetF st req.tenantID = none)
    (hm : env.render ((freshTenant req now).toVars image) = Except.ok m)
    (ha : env.apply m = Except.ok ())
    (hc : env.storeCreateOk = false) :
    Service.create env image st req now =
      (Except.error (TenantError.persistenceError ("store tenant: " ++ req.tenantID)), st,
       [ClusterOp.applyOp m,
        ClusterOp.deleteNsOp ("picoclaw-tenant-" ++ req.tenantID)]) ∧
    (∀ d : String → Except String Unit,
      Service.create { env with deleteNs := d } image st req now =
        Service.create env image st req now) := by
  have aux : ∀ e : Env,
      e.storeGetOk = true → e.storeCreateOk = false →
      e.render ((freshTenant req now).toVars image) = Except.ok m →
      e.apply m = Except.ok () →
      Service.create e image st req now =
        (Except.error (TenantError.persistenceError ("store tenant: " ++ req.tenantID)), st,
         [ClusterOp.applyOp m,
          ClusterOp.deleteNsOp ("picoclaw-tenant-" ++ req.tenantID)]) := by
    intro e hget' hc' hm' ha'
    unfold Service.create
    rw [hval]
    simp only [hdn, if_neg, hget', Bool.true_eq_false, if_false, hnone, hm', ha', hc',
      ite_false, ite_true, if_true]
    cases e.deleteNs (freshTenant req now).nspace <;> rfl
  refine ⟨aux env hget hc hm ha, fun d => ?_⟩
  rw [aux { env with deleteNs := d } hget hc hm ha, aux env hget hc hm ha]

/-- Witness for C6: persistence failure after a successful apply in the
otherwise-succeeding environment. -/
theorem create_cleanup_on_persist_failure_witness :
    Service.create { envAllOk with storeCreateOk := false } "img" [] acmeRequest 0 =
      (Except.error (TenantError.persistenceError ("store tenant: " ++ "acme")), [],
       [ClusterOp.applyOp "manifests",
        ClusterOp.deleteNsOp ("picoclaw-tenant-" ++ "acme")]) :=
  (create_cleanup_on_persist_failure { envAllOk with storeCreateOk := false }
    "img" [] acmeRequest 0 "manifests" rfl (by decide) rfl rfl rfl rfl rfl).1

/-- Claim C7: Delete on an unknown tenant ID returns a not-found error with
no cluster call and no store change; on an existing tenant whose namespace
deletion fails, Delete returns that remote error with the store record
untouched, so the tenant is still found by a store lookup. -/
theorem delete_error_paths :
    (∀ (env : Env) (st : StoreState) (id : String),
      env.storeGetOk = true → storeGetF st id = none →
      Service.delete env st id =
        (Except.error (TenantError.notFoundError id), st, [])) ∧
    (∀ (env : Env) (st : StoreState) (id : String) (t : Tenant) (e : String),
      env.storeGetOk = true → storeGetF st id = some t →
      env.deleteNs t.nspace = Except.error e →
      Service.delete env st id =
        (Except.error (TenantError.remoteError ("delete namespace: " ++ e)), st,
         [ClusterOp.deleteNsOp t.nspace]) ∧
      storeGetF (Service.delete env st id).2.1 id = some t) := by
  constructor
  · intro env st id hget hnone
    unfold Service.delete
    simp only [hget, Bool.true_eq_false, if_false, hnone, ite_false]
  · intro env st id t e hget hsome hdel
    have heq : Service.delete env st id =
        (Except.error (TenantError.remoteError ("delete namespace: " ++ e)), st,
         [ClusterOp.deleteNsOp t.nspace]) := by
      unfold Service.delete
      simp only [hget, Bool.true_eq_false, if_false, hsome, hdel, ite_false]
    refine ⟨heq, ?_⟩
    rw [heq]
    exact hsome

/-- Witness for C7: a lookup miss on the empty store, and a failing
namespace deletion for a stored tenant. -/
theorem delete_error_paths_witness :
    Service.delete envAllOk [] "ghost" =
      (Except.error (TenantError.notFoundError "ghost"), [], []) ∧
    Service.delete { envAllOk with deleteNs := fun _ => Except.error "boom" }
        [("acme", freshTenant acmeRequest 0)] "acme" =
      (Except.error (TenantError.remoteError ("delete namespace: " ++ "boom")),
       [("acme", freshTenant acmeRequest 0)],
       [ClusterOp.deleteNsOp (freshTenant acmeRequest 0).nspace]) :=
  ⟨delete_error_paths.1 envAllOk [] "ghost" rfl rfl,
   (delete_error_paths.2 { envAllOk with deleteNs := fun _ => Except.error "boom" }
      [("acme", freshTenant acmeRequest 0)] "acme" (freshTenant acmeRequest 0) "boom"
      rfl rfl rfl).1⟩

/-- Replacing the row at a key then looking that key up yields the new
value. -/
theorem find?_replace_self {α : Type} (d : List (String × α)) (k : String) (v : α)
    (h : d.any (fun p => p.1 = k) = true) :
    (d.map (fun p => if p.1 = k then (k, v) else p)).find? (fun p => p.1 = k) =
      some (k, v) := by
  induction d with
  | nil => simp at h
  | cons p rest ih =>
    rw [List.map_cons, List.find?_cons]
    by_cases hp : p.1 = k
    · simp [hp]
    · rw [List.any_cons] at h
      have h' : rest.any (fun p => p.1 = k) = true := by
        simpa [hp] using h
      simp [hp, ih h']

/-- Replacing the row at one key leaves lookups of other keys unchanged. -/
theorem find?_replace_other {α : Type} (d : List (String × α)) (k : String) (v : α)
    (k' : String) (hne : ¬ k' = k) :
    (d.map (fun p => if p.1 = k then (k, v) else p)).find? (fun p => p.1 = k') =
      d.find? (fun p => p.1 = k') := by
  induction d with
  | nil => rfl
  | cons p rest ih =>
    rw [List.map_cons, List.find?_cons, List.find?_cons]
    by_cases hp : p.1 = k
    · have h1 : (decide ((if p.1 = k then (k, v) else p).1 = k')) = false := by
        rw [if_pos hp]
        exact decide_eq_false fun hh => hne hh.symm
      have h2 : (decide (p.1 = k')) = false := by
        refine decide_eq_false fun hh => ?_
        rw [hp] at hh
        exact hne hh.symm
      rw [h1, h2]
      exact ih
    · have h1 : (if p.1 = k then (k, v) else p) = p := if_neg hp
      rw [h1]
      cases hd : decide (p.1 = k') with
      | true => rfl
      | false => exact ih

/-- Setting a key then reading it back gives the written value. -/
theorem getKey_setKey_self (d : ConfigDoc) (k : String) (v : Json) :
    getKey (setKey d k v) k = some v := by
  unfold setKey getKey
  split_ifs with h
  · rw [find?_replace_self d k v h]
    rfl
  · rw [List.find?_append]
    have hd : d.find? (fun p => p.1 = k) = none := by
      rw [List.find?_eq_none]
      exact fun x hx hpx => h (List.any_eq_true.mpr ⟨x, hx, hpx⟩)
    rw [hd]
    simp

/-- Setting one key leaves every other key's value unchanged. -/
theorem getKey_setKey_other (d : ConfigDoc) (k : String) (v : Json)
    (k' : String) (hne : ¬ k' = k) :
    getKey (setKey d k v) k' = getKey d k' := by
  unfold setKey getKey
  split_ifs with h
  · rw [find?_replace_other d k v k' hne]
  · rw [List.find?_append]
    have hs : ([(k, v)] : ConfigDoc).find? (fun p => p.1 = k') = none := by
      have : ¬ k = k' := fun hh => hne hh.symm
      simp [this]
    rw [hs]
    cases d.find? (fun p => p.1 = k') <;> rfl

/-- A successful store lookup means some row matches the ID. -/
theorem any_of_storeGetF_some {st : StoreState} {id : String} {t : Tenant}
    (h : storeGetF st id = some t) : st.any (fun p => p.1 = id) = true := by
  unfold storeGetF at h
  cases hf : st.find? (fun p => p.1 = id) with
  | none => rw [hf] at h; exact Option.noConfusion h
  | some q =>
    have hmem := List.mem_of_find?_eq_some hf
    have hq := List.find?_some hf
    exact List.any_eq_true.mpr ⟨q, hmem, hq⟩

/-- After replacing the matching row, lookup of that ID finds the new
tenant. -/
theorem storeGetF_replace_self {st : StoreState} {id : String} {t : Tenant}
    (h : st.any (fun p => p.1 = id) = true) :
    storeGetF (st.map (fun p => if p.1 = id then (id, t) else p)) id = some t := by
  unfold storeGetF
  rw [find?_replace_self st id t h]
  rfl

/-- The update overlay never changes the tenant's ID. -/
theorem updatedTenant_id (t0 : Tenant) (req : UpdateRequest) :
    (updatedTenant t0 req).id = t0.id := by
  unfold updatedTenant
  cases req.resources <;> split_ifs <;> rfl

/-- The overlaid tenant's config document is the rebuilt config of the
stored one. -/
theorem updatedTenant_configJSON (t0 : Tenant) (req : UpdateRequest) :
    (updatedTenant t0 req).configJSON = updatedConfig t0.configJSON req := by
  unfold updatedTenant
  cases req.resources <;> split_ifs <;> rfl

/-- With no resources supplied, the overlay keeps the stored resources. -/
theorem updatedTenant_resources_none (t0 : Tenant) (req : UpdateRequest)
    (hr : req.resources = none) :
    (updatedTenant t0 req).resources = t0.resources := by
  unfold updatedTenant
  rw [hr]
  split_ifs <;> rfl

/-- A successful `Service.update` run, evaluated: the returned tenant is
the overlaid tenant with the update timestamp, the store row is replaced by
exactly that tenant, and one cluster apply is issued. -/
theorem update_success_eq (env : Env) (image : String) (st : StoreState)
    (id : String) (req : UpdateRequest) (t0 : Tenant) (m : String)
    (hget : env.storeGetOk = true)
    (hsome : storeGetF st id = some t0)
    (hid : t0.id = id)
    (hm : env.render ((updatedTenant t0 req).toVars image) = Except.ok m)
    (ha : env.apply m = Except.ok ())
    (hu : env.storeUpdateOk = true) :
    Service.update env image st id req =
      (Except.ok { updatedTenant t0 req with updatedAt := env.now2 },
       st.map (fun p => if p.1 = id then
         (id, { updatedTenant t0 req with updatedAt := env.now2 }) else p),
       [ClusterOp.applyOp m]) := by
  have hany : st.any (fun p => p.1 = id) = true := any_of_storeGetF_some hsome
  have hupd : storeUpdateF st { updatedTenant t0 req with updatedAt := env.now2 } =
      some (st.map (fun p => if p.1 = id then
        (id, { updatedTenant t0 req with updatedAt := env.now2 }) else p)) := by
    unfold storeUpdateF
    simp only [updatedTenant_id, hid]
    rw [if_pos hany]
  unfold Service.update
  simp only [hget, Bool.true_eq_false, if_false, hsome, hm, ha, hu, ite_false,
    ite_true, if_true]
  rw [hupd]

/-- Claim C3: an Update supplying a providers value fully replaces the
config document's top-level providers key with the supplied value, while a
prior agents key not supplied in the request keeps its previous value. -/
theorem update_providers_full_replace (env : Env) (image : String)
    (st : StoreState) (id : String) (req : UpdateRequest) (t0 : Tenant)
    (p : Json) (m : String)
    (hp : req.providers = some p)
    (hag : req.agents = none)
    (hget : env.storeGetOk = true)
    (hsome : storeGetF st id = some t0)
    (hid : t0.id = id)
    (hm : env.render ((updatedTenant t0 req).toVars image) = Except.ok m)
    (ha : env.apply m = Except.ok ())
    (hu : env.storeUpdateOk = true) :
    ∃ t', (Service.update env image st id req).1 = Except.ok t' ∧
      getKey t'.configJSON "providers" = some p ∧
      getKey t'.configJSON "agents" = getKey t0.configJSON "agents" := by
  refine ⟨{ updatedTenant t0 req with updatedAt := env.now2 }, ?_, ?_, ?_⟩
  · rw [update_success_eq env image st id req t0 m hget hsome hid hm ha hu]
  · show getKey (updatedTenant t0 req).configJSON "providers" = some p
    rw [updatedTenant_configJSON]
    unfold updatedConfig
    rw [hp, hag]
    simp only [Option.isSome_some, Bool.true_or, if_true, ite_true]
    cases req.channels with
    | none => exact getKey_setKey_self _ _ _
    | some c =>
      rw [getKey_setKey_other _ _ _ _ (by decide)]
      exact getKey_setKey_self _ _ _
  · show getKey (updatedTenant t0 req).configJSON "agents" = getKey t0.configJSON "agents"
    rw [updatedTenant_configJSON]
    unfold updatedConfig
    rw [hp, hag]
    simp only [Option.isSome_some, Bool.true_or, if_true, ite_true]
    cases req.channels with
    | none => exact getKey_setKey_other _ _ _ _ (by decide)
    | some c =>
      rw [getKey_setKey_other _ _ _ _ (by decide)]
      exact getKey_setKey_other _ _ _ _ (by decide)

/-- Witness for C3: replacing providers on a tenant that has a prior agents
section. -/
theorem update_providers_full_replace_witness :
    ∃ t', (Service.update envAllOk "img"
        [("acme", freshTenant { acmeRequest with agents := some (Json.strVal "olda") } 0)]
        "acme"
        { displayName := "", providers := some (Json.strVal "newp"), agents := none,
          channels := none, resources := none }).1 = Except.ok t' ∧
      getKey t'.configJSON "providers" = some (Json.strVal "newp") ∧
      getKey t'.configJSON "agents" =
        getKey (freshTenant { acmeRequest with
          agents := some (Json.strVal "olda") } 0).configJSON "agents" :=
  update_providers_full_replace envAllOk "img"
    [("acme", freshTenant { acmeRequest with agents := some (Json.strVal "olda") } 0)]
    "acme"
    { displayName := "", providers := some (Json.strVal "newp"), agents := none,
      channels := none, resources := none }
    (freshTenant { acmeRequest with agents := some (Json.strVal "olda") } 0)
    (Json.strVal "newp") "manifests"
    rfl rfl rfl rfl rfl rfl rfl rfl

/-- Claim C9: an Update supplying only a display name leaves the tenant's
configuration document and its resource limits identical, both in the
returned tenant and in the stored record. -/
theorem update_displayname_frame (env : Env) (image : String)
    (st : StoreState) (id : String) (d : String) (t0 : Tenant) (m : String)
    (hget : env.storeGetOk = true)
    (hsome : storeGetF st id = some t0)
    (hid : t0.id = id)
    (hm : env.render ((updatedTenant t0
      { displayName := d, providers := none, agents := none, channels := none,
        resources := none }).toVars image) = Except.ok m)
    (ha : env.apply m = Except.ok ())
    (hu : env.storeUpdateOk = true) :
    ∃ t', (Service.update env image st id
        { displayName := d, providers := none, agents := none, channels := none,
          resources := none }).1 = Except.ok t' ∧
      t'.configJSON = t0.configJSON ∧
      t'.resources = t0.resources ∧
      storeGetF ((Service.update env image st id
        { displayName := d, providers := none, agents := none, channels := none,
          resources := none }).2.1) id = some t' := by
  refine ⟨{ updatedTenant t0
    { displayName := d, providers := none, agents := none, channels := none,
      resources := none } with updatedAt := env.now2 }, ?_, ?_, ?_, ?_⟩
  · rw [update_success_eq env image st id _ t0 m hget hsome hid hm ha hu]
  · show (updatedTenant t0 _).configJSON = t0.configJSON
    rw [updatedTenant_configJSON]
    rfl
  · exact updatedTenant_resources_none t0 _ rfl
  · rw [update_success_eq env image st id _ t0 m hget hsome hid hm ha hu]
    exact storeGetF_replace_self (any_of_storeGetF_some hsome)

/-- Witness for C9: a display-name-only update of a default tenant. -/
theorem update_displayname_frame_witness :
    ∃ t', (Service.update envAllOk "img" [("acme", freshTenant acmeRequest 0)] "acme"
        { displayName := "NewName", providers := none, agents := none, channels := none,
          resources := none }).1 = Except.ok t' ∧
      t'.configJSON = (freshTenant acmeRequest 0).configJSON ∧
      t'.resources = (freshTenant acmeRequest 0).resources ∧
      storeGetF ((Service.update envAllOk "img" [("acme", freshTenant acmeRequest 0)] "acme"
        { displayName := "NewName", providers := none, agents := none, channels := none,
          resources := none }).2.1) "acme" = some t' :=
  update_displayname_frame envAllOk "img" [("acme", freshTenant acmeRequest 0)] "acme"
    "NewName" (freshTenant acmeRequest 0) "manifests" rfl rfl rfl rfl rfl rfl

/-- Every document surviving the parse has a non-empty kind. -/
theorem parseYAML_kinds (parse : String → Except String KObj) :
    ∀ (docs : List String) (objs : List KObj),
      parseYAMLDocuments parse docs = Except.ok objs →
      ∀ o ∈ objs, ¬ o.kind = "" := by
  intro docs
  induction docs with
  | nil =>
    intro objs h o ho
    cases h
    cases ho
  | cons dd rest ih =>
    intro objs h o ho
    rw [parseYAMLDocuments] at h
    split_ifs at h with hcond
    · exact ih objs h o ho
    · cases hp : parse (trimDoc dd) with
      | error e =>
        rw [hp] at h
        exact Except.noConfusion h
      | ok obj =>
        rw [hp] at h
        dsimp only at h
        split_ifs at h with hkind
        · exact ih objs h o ho
        · cases hr : parseYAMLDocuments parse rest with
          | error e =>
            rw [hr] at h
            exact Except.noConfusion h
          | ok objs' =>
            rw [hr] at h
            cases h
            cases ho with
            | head => exact hkind
            | tail b ho' => exact ih objs' hr o ho'

/-- The parse output's length is the number of chunks with a non-empty
kind. -/
theorem parseYAML_length (parse : String → Except String KObj) :
    ∀ (docs : List String) (objs : List KObj),
      parseYAMLDocuments parse docs = Except.ok objs →
      objs.length = countNonEmptyKind parse docs := by
  intro docs
  induction docs with
  | nil =>
    intro objs h
    cases h
    rfl
  | cons dd rest ih =>
    intro objs h
    rw [parseYAMLDocuments] at h
    rw [countNonEmptyKind]
    split_ifs at h ⊢ with hcond
    · exact ih objs h
    · cases hp : parse (trimDoc dd) with
      | error e =>
        rw [hp] at h
        exact Except.noConfusion h
      | ok obj =>
        rw [hp] at h
        dsimp only at h ⊢
        split_ifs at h ⊢ with hkind
        · exact ih objs h
        · cases hr : parseYAMLDocuments parse rest with
          | error e =>
            rw [hr] at h
            exact Except.noConfusion h
          | ok objs' =>
            rw [hr] at h
            cases h
            rw [List.length_cons, ih objs' hr]

/-- When every mapping and patch call succeeds, the apply loop submits
exactly its input objects, in order. -/
theorem applyLoop_all_ok (mapping : KObj → Except String Mapping)
    (patch : KObj → Except String Unit)
    (hmap : ∀ o, ∃ mp, mapping o = Except.ok mp)
    (hpatch : ∀ o, patch o = Except.ok ()) :
    ∀ objs : List KObj, applyLoop mapping patch objs = (Except.ok (), objs) := by
  intro objs
  induction objs with
  | nil => rfl
  | cons o rest ih =>
    obtain ⟨mp, hmp⟩ := hmap o
    rw [applyLoop, hmp, hpatch o, ih]

/-- Claim C8: documents whose declared kind is empty (and empty chunks and
bare separators) are discarded and never applied; the number of documents
submitted to the cluster equals the number of parsed documents with a
non-empty kind. -/
theorem apply_submits_nonempty_kinds (parse : String → Except String KObj)
    (mapping : KObj → Except String Mapping)
    (patch : KObj → Except String Unit)
    (docs : List String) (objs : List KObj)
    (hparse : parseYAMLDocuments parse docs = Except.ok objs)
    (hmap : ∀ o, ∃ mp, mapping o = Except.ok mp)
    (hpatch : ∀ o, patch o = Except.ok ()) :
    (∀ o ∈ objs, ¬ o.kind = "") ∧
    (Applier.apply parse true mapping patch docs).2 = objs ∧
    ((Applier.apply parse true mapping patch docs).2).length =
      countNonEmptyKind parse docs := by
  have hsub : Applier.apply parse true mapping patch docs = (Except.ok (), objs) := by
    unfold Applier.apply
    rw [hparse]
    simp only [Bool.true_eq_false, if_false, ite_false]
    exact applyLoop_all_ok mapping patch hmap hpatch objs
  refine ⟨parseYAML_kinds parse docs objs hparse, ?_, ?_⟩
  · rw [hsub]
  · rw [hsub]
    exact parseYAML_length parse docs objs hparse

/-- Witness for C8: a stream with one real document, a bare separator, an
empty-kind document and an empty chunk submits exactly one document. -/
theorem apply_submits_nonempty_kinds_witness :
    (∀ o ∈ [({ kind := "Namespace", name := "ns", nspace := "" } : KObj)], ¬ o.kind = "") ∧
    (Applier.apply
      (fun s => if s = "a" then
        Except.ok { kind := "Namespace", name := "ns", nspace := "" }
      else
        Except.ok { kind := "", name := "", nspace := "" })
      true (fun _ => Except.ok { namespaced := true }) (fun _ => Except.ok ())
      ["a", "---", "b", ""]).2 =
      [{ kind := "Namespace", name := "ns", nspace := "" }] ∧
    ((Applier.apply
      (fun s => if s = "a" then
        Except.ok { kind := "Namespace", name := "ns", nspace := "" }
      else
        Except.ok { kind := "", name := "", nspace := "" })
      true (fun _ => Except.ok { namespaced := true }) (fun _ => Except.ok ())
      ["a", "---", "b", ""]).2).length =
      countNonEmptyKind
        (fun s => if s = "a" then
          Except.ok { kind := "Namespace", name := "ns", nspace := "" }
        else
          Except.ok { kind := "", name := "", nspace := "" })
        ["a", "---", "b", ""] :=
  apply_submits_nonempty_kinds
    (fun s => if s = "a" then
      Except.ok { kind := "Namespace", name := "ns", nspace := "" }
    else
      Except.ok { kind := "", name := "", nspace := "" })
    (fun _ => Except.ok { namespaced := true }) (fun _ => Except.ok ())
    ["a", "---", "b", ""]
    [{ kind := "Namespace", name := "ns", nspace := "" }]
    rfl
    (fun _ => ⟨{ namespaced := true }, rfl⟩)
    (fun _ => rfl)

/-- Claim C10 fails on the code: the validator accepts IDs of up to 53
characters, but the fixed 16-character prefix `"picoclaw-tenant-"` then
yields a 69-character namespace, above the 63-character DNS-label limit the
source's own comment (`63 - len("picoclaw-tenant-")`) intends.  A
53-character ID is accepted and its derived namespace has length 69. -/
theorem namespace_length_exceeds_63 :
    validateTenantID (String.mk (List.replicate 53 'a')) = none ∧
    ("picoclaw-tenant-" ++ String.mk (List.replicate 53 'a')).length = 69 ∧
    63 < ("picoclaw-tenant-" ++ String.mk (List.replicate 53 'a')).length := by
  refine ⟨?_, ?_, ?_⟩ <;> decide

end Picoclaw
